import Mathlib

/-!
Verification of the Cloud-Iot-Infra greenhouse telemetry system.

The repository's concrete logic lives in the Next.js frontend
(`frontend/src/app/plants/[plantId]/page.tsx`, `components/ControlPanel.tsx`,
`components/ThresholdRecommendations.tsx`, `components/DiseaseRiskChart.tsx`,
`lib/api.ts`).  The evaluation engine described by the specification
(window store, trend analyzer, threshold recommender, alert state machine,
scheduler) is a reconstruction: it has no implementation under the sources,
so those components are modelled from the specification text and are marked
as such in their doc comments.  Numbers are embedded as rationals.
-/

namespace CloudIot

/-- Subset of a `PlantSnapshot` (frontend `types/telemetry.ts`) used by the
plant detail page: the latest disease flag, the classifier confidence and the
raw score.  `none` models a JS `undefined`/`null` field. -/
structure Snapshot where
  disease : Option Bool
  confidence : Option Rat
  score : Option Rat
  deriving DecidableEq, Repr

/-- `page.tsx`: `const confidence = snapshot?.confidence ?? snapshot?.score ?? null;`
(nullish coalescing of the confidence with the raw score). -/
def resolvedConfidence (s : Snapshot) : Option Rat :=
  match s.confidence with
  | some c => some c
  | none => s.score

/-- `page.tsx`: `const isDiseased = snapshot?.disease === true;`. -/
def isDiseased (s : Snapshot) : Bool :=
  s.disease == some true

/-- The risk confidence floor: the literal `0.8` of
`confidence >= 0.8` in `page.tsx`. -/
def RISK_CONFIDENCE_FLOOR : Rat := 4 / 5

/-- `page.tsx`:
`const isHighDiseaseRisk = isDiseased && confidence !== null && confidence >= 0.8;`. -/
def isHighDiseaseRisk (s : Snapshot) : Bool :=
  isDiseased s &&
    match resolvedConfidence s with
    | some c => decide (RISK_CONFIDENCE_FLOOR ≤ c)
    | none => false

/-- `page.tsx` `summary` memo: status label is `"Loading"` without a snapshot,
else `"Needs attention"` / `"Healthy"` / `"Monitoring"` according to whether
`snapshot.disease` is `true`, `false`, or absent. -/
def summaryStatusLabel (snapshot : Option Snapshot) : String :=
  match snapshot with
  | none => "Loading"
  | some s =>
    if s.disease == some true then "Needs attention"
    else if s.disease == some false then "Healthy"
    else "Monitoring"

/-- `page.tsx` disease table row, Status column: `"⚠︎ Needs attention"` when
`point.disease === true`, `"✓ Healthy"` when `point.disease === false`,
`"— Unknown"` otherwise. -/
def diseaseRowStatus (disease : Option Bool) : String :=
  if disease == some true then "⚠︎ Needs attention"
  else if disease == some false then "✓ Healthy"
  else "— Unknown"

/-- `page.tsx` disease table row, Prediction column:
`point.disease !== undefined ? (point.disease ? "Diseased" : "Healthy") : "—"`. -/
def diseaseRowPrediction (disease : Option Bool) : String :=
  match disease with
  | some d => if d then "Diseased" else "Healthy"
  | none => "—"

/-! ## Alert state machine (spec §4.5) -/

/-- Modelled from the spec: the engine's alert status — the evaluation engine
of §4.5 has no implementation in the repository sources. -/
inductive AlertStatus where
  | Normal
  | Alerting
  deriving DecidableEq, Repr

/-- Modelled from the spec: intents emitted by one alert-machine step
(spec §4.5); the engine is absent from the sources. -/
inductive AlertIntent where
  | AlertRaised
  | AlertCleared
  | NoChange
  deriving DecidableEq, Repr

/-- Modelled from the spec: per-(device, channel) `AlertState` of §3
(`lastTransitionAt` is omitted: no claim mentions it). The engine holding
this state is absent from the sources. -/
structure AlertState where
  status : AlertStatus
  consecutiveBreach : Nat
  consecutiveRecovery : Nat
  deriving DecidableEq, Repr

/-- Modelled from the spec: the fixed engine hysteresis parameter K
(default 3, §3/§4.5). -/
def engineK : Nat := 3

/-- Modelled from the spec: one transition-rule evaluation of §4.5, for one
channel and one tick.  If the condition holds this tick the breach counter
increments and the recovery counter resets, raising when a `Normal` state
reaches `K` consecutive breaches; symmetrically for recovery.  The engine is
absent from the sources. -/
def alertStep (K : Nat) (st : AlertState) (cond : Bool) : AlertState × AlertIntent :=
  if cond then
    let b := st.consecutiveBreach + 1
    if st.status = AlertStatus.Normal ∧ K ≤ b then
      (⟨AlertStatus.Alerting, b, 0⟩, AlertIntent.AlertRaised)
    else
      (⟨st.status, b, 0⟩, AlertIntent.NoChange)
  else
    let r := st.consecutiveRecovery + 1
    if st.status = AlertStatus.Alerting ∧ K ≤ r then
      (⟨AlertStatus.Normal, 0, r⟩, AlertIntent.AlertCleared)
    else
      (⟨st.status, 0, r⟩, AlertIntent.NoChange)

/-- Modelled from the spec: folding `alertStep` over a sequence of per-tick
conditions, collecting the emitted intents. -/
def alertRun (K : Nat) (st : AlertState) : List Bool → AlertState × List AlertIntent
  | [] => (st, [])
  | c :: cs =>
    let s1 := alertStep K st c
    let rest := alertRun K s1.1 cs
    (rest.1, s1.2 :: rest.2)

/-! ## Trend analyzer (spec §4.2) -/

/-- Modelled from the spec: one timestamped sample of a per-metric window. -/
structure Sample where
  t : Rat
  v : Rat
  deriving DecidableEq, Repr

/-- Modelled from the spec: the trend tags of §4.2 / glossary. -/
inductive TrendTag where
  | rising
  | falling
  | stable
  | volatile
  | insufficient_data
  deriving DecidableEq, Repr

/-- Modelled from the spec: the analyzer's configurable noise floor (relative
to the profile range width) and volatility threshold (§4.2). -/
structure TrendConfig where
  noiseFloor : Rat
  volatilityThreshold : Rat
  deriving DecidableEq, Repr

/-- Sum of a list of rationals. -/
def sumL (l : List Rat) : Rat := l.foldl (fun a b => a + b) 0

/-- Modelled from the spec: ordinary least-squares slope of a window
(§4.2); 0 when the denominator degenerates. -/
def olsSlope (w : List Sample) : Rat :=
  let n : Rat := w.length
  let st := sumL (w.map (fun s => s.t))
  let sv := sumL (w.map (fun s => s.v))
  let stt := sumL (w.map (fun s => s.t * s.t))
  let stv := sumL (w.map (fun s => s.t * s.v))
  let denom := n * stt - st * st
  if denom = 0 then 0 else (n * stv - st * sv) / denom

/-- Modelled from the spec: OLS intercept matching `olsSlope`. -/
def olsIntercept (w : List Sample) : Rat :=
  let n : Rat := w.length
  if n = 0 then 0
  else (sumL (w.map (fun s => s.v)) - olsSlope w * sumL (w.map (fun s => s.t))) / n

/-- Modelled from the spec: mean squared residual of the OLS fit (§4.2). -/
def residualVariance (w : List Sample) : Rat :=
  let n : Rat := w.length
  if n = 0 then 0
  else
    let a := olsSlope w
    let b := olsIntercept w
    sumL (w.map (fun s => (s.v - (a * s.t + b)) * (s.v - (a * s.t + b)))) / n

/-- Modelled from the spec: the trend classification of §4.2.  Fewer than 3
samples yields `insufficient_data`; otherwise the slope is compared against
the noise floor scaled by the profile range width (`stable` when within it,
`rising`/`falling` beyond it) and a `volatile` tag is added when the residual
variance exceeds the volatility threshold.  Deterministic and pure. -/
def analyzeTrend (cfg : TrendConfig) (rangeWidth : Rat) (w : List Sample) : List TrendTag :=
  if w.length < 3 then [TrendTag.insufficient_data]
  else
    let s := olsSlope w
    let nf := cfg.noiseFloor * rangeWidth
    let dir :=
      if nf < s then [TrendTag.rising]
      else if s < -nf then [TrendTag.falling]
      else [TrendTag.stable]
    let vol :=
      if cfg.volatilityThreshold < residualVariance w then [TrendTag.volatile] else []
    dir ++ vol

/-! ## Threshold recommender (spec §4.3) -/

/-- Modelled from the spec: a `DeviceProfile` ideal range for one metric
(§3); the profile store itself is external. -/
structure IdealRange where
  min : Rat
  max : Rat
  deriving DecidableEq, Repr

/-- Modelled from the spec: a recommendation confidence tier (§3). -/
inductive Confidence where
  | low
  | medium
  | high
  deriving DecidableEq, Repr

/-- Modelled from the spec: a `Recommendation` (§3); device and actuator
identities are carried by the caller and omitted here. -/
structure Recommendation where
  currentThreshold : Option Rat
  recommendedThreshold : Rat
  confidence : Confidence
  trends : List TrendTag
  reasoning : List String
  deriving DecidableEq, Repr

/-- Mean of the window's values; 0 on an empty window. -/
def meanValue (w : List Sample) : Rat :=
  if w.length = 0 then 0 else sumL (w.map (fun s => s.v)) / (w.length : Rat)

/-- Modelled from the spec: "the trend direction is moving further from the
ideal band" (§4.3) — the recent average is above the band with a `rising`
tag, or below it with a `falling` tag. -/
def movingAway (r : IdealRange) (tags : List TrendTag) (avg : Rat) : Bool :=
  if r.max < avg then tags.contains TrendTag.rising
  else if avg < r.min then tags.contains TrendTag.falling
  else false

/-- Modelled from the spec: how far the recent average lies outside the
ideal band ("magnitude of deviation", §4.3). -/
def deviationMagnitude (r : IdealRange) (avg : Rat) : Rat :=
  if r.max < avg then avg - r.max
  else if avg < r.min then r.min - avg
  else 0

/-- Modelled from the spec: confidence tiering of §4.3 — `high` for a full
window with an out-of-range trend confirmed over ≥ 2 consecutive ticks and no
`volatile` tag; `low` for a partially-filled window; `medium` otherwise. -/
def confidenceTier (windowFull : Bool) (confirming : Nat) (volatile : Bool) : Confidence :=
  if windowFull && decide (2 ≤ confirming) && !volatile then Confidence.high
  else if !windowFull then Confidence.low
  else Confidence.medium

/-- Modelled from the spec: deterministic reasoning strings (§4.3), primary
cause first. -/
def reasoningFor (r : IdealRange) (avg : Rat) : List String :=
  if r.max < avg then ["recent average exceeds the ideal maximum and the trend is moving further away"]
  else if avg < r.min then ["recent average is below the ideal minimum and the trend is moving further away"]
  else []

/-- Modelled from the spec: the threshold recommender of §4.3, for one
actuator/metric pair.  With an `insufficient_data` trend no recommendation is
produced; when the recent average is outside the ideal band and the trend is
moving further from it, the current threshold (or the ideal midpoint when
absent) is shifted toward the ideal midpoint by `gain` times the deviation
magnitude and clamped to `[r.min, r.max]`; when within range and stable, no
recommendation is emitted. -/
def recommendFor (cfg : TrendConfig) (r : IdealRange) (gain : Rat)
    (current : Option Rat) (confirming : Nat) (windowFull : Bool)
    (w : List Sample) : Option Recommendation :=
  let tags := analyzeTrend cfg (r.max - r.min) w
  if tags.contains TrendTag.insufficient_data then none
  else
    let avg := meanValue w
    if movingAway r tags avg then
      let mid := (r.min + r.max) / 2
      let base := current.getD mid
      let dev := deviationMagnitude r avg
      let candidate := if base ≤ mid then base + gain * dev else base - gain * dev
      some { currentThreshold := current
             recommendedThreshold := max r.min (min r.max candidate)
             confidence := confidenceTier windowFull confirming (tags.contains TrendTag.volatile)
             trends := tags
             reasoning := reasoningFor r avg }
    else none

/-! ## Disease risk fuser and evaluation tick (spec §4.4, §4.6) -/

/-- Modelled from the spec: a `DiseaseAssessment` (§3), device and timestamp
omitted (only the latest one is fused). -/
structure Assessment where
  disease : Bool
  confidence : Rat
  deriving DecidableEq, Repr

/-- Modelled from the spec: the disease-risk fuser of §4.4 —
`highRisk = disease == true AND confidence >= floor`, `false` when no
assessment exists. -/
def fuseHighRisk (floor : Rat) (a : Option Assessment) : Bool :=
  match a with
  | some a => a.disease && decide (floor ≤ a.confidence)
  | none => false

/-- Modelled from the spec: the per-device, per-metric input snapshot one
evaluation tick reads (window, profile range, current threshold, confirming
tick count, window fullness, latest assessment) — §4.6's
"(window, profile, threshold, assessment) state". -/
structure TickInput where
  window : List Sample
  range : IdealRange
  current : Option Rat
  confirming : Nat
  windowFull : Bool
  assessment : Option Assessment
  deriving DecidableEq, Repr

/-- Modelled from the spec: the metric-breach condition feeding the alert
channel — the freshest sample lies outside the ideal band (§4.5 "one per
breached metric"). -/
def breachCond (inp : TickInput) : Bool :=
  match inp.window.getLast? with
  | some s => decide (s.v < inp.range.min) || decide (inp.range.max < s.v)
  | none => false

/-- Modelled from the spec: the outputs of one evaluation tick for one
device/metric: the recommendation (if any), the fused risk flag, the updated
alert state and the emitted intent. -/
structure TickOutput where
  recOut : Option Recommendation
  highRisk : Bool
  alert : AlertState
  intent : AlertIntent
  deriving DecidableEq, Repr

/-- Modelled from the spec: one evaluation tick (§2 control flow, §4.6) —
trend analysis and recommendation from the window, fusion of the latest
assessment, then one alert-machine step on the metric-breach channel with
`K = engineK`. -/
def evaluateTick (cfg : TrendConfig) (gain : Rat) (inp : TickInput)
    (st : AlertState) : TickOutput :=
  let recommendation :=
    recommendFor cfg inp.range gain inp.current inp.confirming inp.windowFull inp.window
  let hr := fuseHighRisk RISK_CONFIDENCE_FLOOR inp.assessment
  let step := alertStep engineK st (breachCond inp)
  { recOut := recommendation, highRisk := hr, alert := step.1, intent := step.2 }

/-! ## Disease chart (`components/DiseaseRiskChart.tsx`) -/

/-- Subset of a `PlantTimeSeriesPoint` used by `formatPoints`: disease flag,
confidence and score.  The timestamp-derived `label` is omitted (pure date
formatting). -/
structure SeriesPoint where
  disease : Option Bool
  confidence : Option Rat
  score : Option Rat
  deriving DecidableEq, Repr

/-- `DiseaseRiskChart.tsx`:
`Math.max(0, Math.min(1, (point.confidence ?? point.score ?? 0)))`. -/
def clampedConfidence (p : SeriesPoint) : Rat :=
  max 0 (min 1 ((match p.confidence with
    | some c => some c
    | none => p.score).getD 0))

/-- `DiseaseRiskChart.tsx`: the vertical-axis mapping — `0.5 - confidence*0.5`
when `disease === true`, `0.5 + confidence*0.5` when `disease === false`,
`0.5` otherwise. -/
def yValueOf (disease : Option Bool) (c : Rat) : Rat :=
  match disease with
  | some true => 1/2 - c * (1/2)
  | some false => 1/2 + c * (1/2)
  | none => 1/2

/-- A chart datum: the source point and its computed y value. -/
structure ChartDatum where
  point : SeriesPoint
  yValue : Rat
  deriving DecidableEq, Repr

/-- `DiseaseRiskChart.tsx` `formatPoints` applied to one point. -/
def formatPoint (p : SeriesPoint) : ChartDatum :=
  { point := p, yValue := yValueOf p.disease (clampedConfidence p) }

/-- `DiseaseRiskChart.tsx` `formatPoints`: maps every input point to a chart
datum. -/
def formatPoints (points : List SeriesPoint) : List ChartDatum :=
  points.map formatPoint

/-! ## Telemetry submission (`lib/api.ts`) -/

/-- Subset of a `TelemetryPayload` used by `submitTelemetry`'s synthetic
record construction. -/
structure TelemetryPayload where
  deviceId : String
  score : Rat
  temperatureC : Option Rat
  humidity : Option Rat
  soilMoisture : Option Rat
  lightLux : Option Rat
  disease : Option Bool
  notes : Option String
  deriving DecidableEq, Repr

/-- The `TelemetryRecord` built by `submitTelemetry`'s mock and fallback
paths (nullable fields stay `Option`, mirroring `?? null`). -/
structure TelemetryRecord where
  deviceId : String
  timestamp : Nat
  score : Rat
  temperatureC : Option Rat
  humidity : Option Rat
  soilMoisture : Option Rat
  lightLux : Option Rat
  disease : Bool
  notes : Option String
  deriving DecidableEq, Repr

/-- The score cutoff `0.7` in `payload.score >= 0.7` of `api.ts`. -/
def DISEASE_SCORE_CUTOFF : Rat := 7 / 10

/-- `api.ts` `submitTelemetry` (both the mock path and the fallback path
after a failed POST build the same record):
`disease: payload.disease !== undefined ? payload.disease : payload.score >= 0.7`. -/
def syntheticRecord (now : Nat) (p : TelemetryPayload) : TelemetryRecord :=
  { deviceId := p.deviceId
    timestamp := now
    score := p.score
    temperatureC := p.temperatureC
    humidity := p.humidity
    soilMoisture := p.soilMoisture
    lightLux := p.lightLux
    disease :=
      match p.disease with
      | some d => d
      | none => decide (DISEASE_SCORE_CUTOFF ≤ p.score)
    notes := p.notes }

/-! ## Control panel (`components/ControlPanel.tsx`) and recommendation
apply path (`components/ThresholdRecommendations.tsx`) -/

/-- The three controllable metrics of `ControlPanel.tsx`. -/
inductive MetricKey where
  | soilMoisture
  | temperatureC
  | lightLux
  deriving DecidableEq, Repr

/-- The three actuators. -/
inductive ActionKey where
  | pump
  | fan
  | lights
  deriving DecidableEq, Repr

/-- `ControlPanel.tsx` `METRIC_META[...].min`. -/
def metricMin : MetricKey → Rat
  | MetricKey.soilMoisture => 0
  | MetricKey.temperatureC => 10
  | MetricKey.lightLux => 0

/-- `ControlPanel.tsx` `METRIC_META[...].max`. -/
def metricMax : MetricKey → Rat
  | MetricKey.soilMoisture => 100
  | MetricKey.temperatureC => 40
  | MetricKey.lightLux => 100000

/-- `ControlPanel.tsx` `metricToAction`: pump for soil moisture, fan for
temperature, lights for light. -/
def metricToAction : MetricKey → ActionKey
  | MetricKey.soilMoisture => ActionKey.pump
  | MetricKey.temperatureC => ActionKey.fan
  | MetricKey.lightLux => ActionKey.lights

/-- `ControlPanel.tsx` value parsing inside `trigger`'s try block: soil
moisture percentages are rounded then divided by 100, temperatures are
rounded, light lux is passed through (`meta.parseValue` is the identity for
lux). -/
def parsedValue (metric : MetricKey) (x : Rat) : Rat :=
  match metric with
  | MetricKey.soilMoisture => ((round x : Int) : Rat) / 100
  | MetricKey.temperatureC => ((round x : Int) : Rat)
  | MetricKey.lightLux => x

/-- `ControlPanel.tsx` `METRIC_META[...].unit`. -/
def metricUnit : MetricKey → String
  | MetricKey.soilMoisture => "%"
  | MetricKey.temperatureC => "°C"
  | MetricKey.lightLux => "lux"

/-- An actuator command as sent by `sendActuatorCommand`. -/
structure ActuatorCommand where
  actuator : ActionKey
  targetValue : Rat
  metric : MetricKey
  deriving DecidableEq, Repr

/-- Outcome of the `trigger` function: silently blocked by the loading
guard, an error message with no command, or a sent command. -/
inductive TriggerOutcome where
  | blocked
  | invalid (msg : String)
  | sent (cmd : ActuatorCommand)
  deriving DecidableEq, Repr

/-- The user's entered target string, abstracted by its JS parse result:
`none` = empty after trimming, `some none` = non-empty but `parseFloat`
yields `NaN`, `some (some x)` = parses to the number `x`. -/
def TargetInput : Type := Option (Option Rat)

/-- `ControlPanel.tsx` `trigger`: returns early when the action is still in
its loading window; errors on an empty input, a non-numeric input, or a
value outside `[meta.min, meta.max]`; otherwise parses the value and sends
an actuator command for the metric's action. -/
def trigger (metric : MetricKey) (loadingRemaining : Nat) (input : TargetInput) :
    TriggerOutcome :=
  if 0 < loadingRemaining then TriggerOutcome.blocked
  else
    match input with
    | none => TriggerOutcome.invalid "Please enter a target value"
    | some none => TriggerOutcome.invalid "Invalid number"
    | some (some x) =>
      if x < metricMin metric ∨ metricMax metric < x then
        TriggerOutcome.invalid
          ("Value must be between " ++ toString (metricMin metric) ++ " and " ++
            toString (metricMax metric) ++ " " ++ metricUnit metric)
      else
        TriggerOutcome.sent
          { actuator := metricToAction metric
            targetValue := parsedValue metric x
            metric := metric }

/-- `ThresholdRecommendations.tsx` `ACTUATOR_META[...].metric`. -/
def actuatorMetric : ActionKey → MetricKey
  | ActionKey.pump => MetricKey.soilMoisture
  | ActionKey.fan => MetricKey.temperatureC
  | ActionKey.lights => MetricKey.lightLux

/-- `ThresholdRecommendations.tsx` `handleApply`: the operator accept path —
on an explicit apply click it sends an actuator command carrying the
recommendation's `recommendedThreshold`, regardless of the confidence
tier. -/
def handleApplyCommand (actuator : ActionKey) (recommendedThreshold : Rat) :
    ActuatorCommand :=
  { actuator := actuator
    targetValue := recommendedThreshold
    metric := actuatorMetric actuator }

/-- Modelled from the spec: the engine's threshold-write policy (§6) — a
write is persisted exactly when the recommendation's confidence is `high` or
the operator has explicitly accepted it through the accept path.  The engine
is absent from the sources; the accept path is `handleApplyCommand`. -/
def thresholdWritePersisted (conf : Confidence) (operatorAccepted : Bool) : Bool :=
  conf == Confidence.high || operatorAccepted

/-! ## Concrete instances used to exercise the theorems -/

/-- A trend configuration with a small noise floor and a large volatility
threshold. -/
def cfgA : TrendConfig := ⟨1/100, 1000000⟩

/-- The soil-moisture ideal range of the spec's scenarios, scaled to
percent-free units: `[30, 36]`. -/
def rangeA : IdealRange := ⟨30, 36⟩

/-- A rising window whose values sit far above `rangeA`. -/
def windowRising : List Sample := [⟨0, 40⟩, ⟨1, 45⟩, ⟨2, 50⟩]

/-- The recommendation produced from `windowRising` over `rangeA` with gain
10 and current threshold 35: the raw shift `35 - 10·9 = -55` escapes the
band and is clamped to 30. -/
def recA : Recommendation :=
  { currentThreshold := some 35
    recommendedThreshold := 30
    confidence := Confidence.high
    trends := [TrendTag.rising]
    reasoning := ["recent average exceeds the ideal maximum and the trend is moving further away"] }

/-- A one-sample breaching window (latest value 50 above `rangeA`). -/
def inpBreach : TickInput :=
  { window := [⟨0, 50⟩]
    range := rangeA
    current := none
    confirming := 0
    windowFull := false
    assessment := none }

/-- An alert state one confirming tick short of the two remaining ones:
`Normal` with one consecutive breach recorded. -/
def stMidStreak : AlertState := ⟨AlertStatus.Normal, 1, 0⟩

/-- A fresh alert state. -/
def stFresh : AlertState := ⟨AlertStatus.Normal, 0, 0⟩

/-- First repeated evaluation of `inpBreach` from `stMidStreak`. -/
def tickRun1 : TickOutput := evaluateTick ⟨1/10, 1⟩ (1/2) inpBreach stMidStreak

/-- Second repeated evaluation, chained on the first run's alert state with
no new input. -/
def tickRun2 : TickOutput := evaluateTick ⟨1/10, 1⟩ (1/2) inpBreach tickRun1.alert

/-! ## Theorems -/

/-- C1: for every device snapshot, the fused high-risk flag is true exactly
when the disease flag is true and the (resolved) confidence is present and at
least the 0.80 risk confidence floor; at the boundary, disease with
confidence 0.79 is not high risk and disease with confidence 0.80 is. -/
theorem C1_highRisk_iff_confidence_floor :
    (∀ s : Snapshot, isHighDiseaseRisk s = true ↔
      (s.disease = some true ∧
        ∃ c, resolvedConfidence s = some c ∧ RISK_CONFIDENCE_FLOOR ≤ c)) ∧
    isHighDiseaseRisk ⟨some true, some (79/100), none⟩ = false ∧
    isHighDiseaseRisk ⟨some true, some (80/100), none⟩ = true := by
  refine ⟨?_,
    by norm_num [isHighDiseaseRisk, isDiseased, resolvedConfidence, RISK_CONFIDENCE_FLOOR],
    by norm_num [isHighDiseaseRisk, isDiseased, resolvedConfidence, RISK_CONFIDENCE_FLOOR]⟩
  intro s
  cases h : resolvedConfidence s with
  | none =>
    simp [isHighDiseaseRisk, isDiseased, h]
  | some c =>
    simp [isHighDiseaseRisk, isDiseased, h, and_comm]

/-- C3: a snapshot with no disease assessment yields `highRisk = false` and
is rendered as an explicit unknown state ("Monitoring", "— Unknown", "—"),
each distinct from the confirmed-healthy rendering ("Healthy",
"✓ Healthy"). -/
theorem C3_unknown_distinct_from_healthy :
    ∀ s h : Snapshot, s.disease = none → h.disease = some false →
      isHighDiseaseRisk s = false ∧
      summaryStatusLabel (some s) = "Monitoring" ∧
      summaryStatusLabel (some h) = "Healthy" ∧
      summaryStatusLabel (some s) ≠ summaryStatusLabel (some h) ∧
      diseaseRowStatus s.disease = "— Unknown" ∧
      diseaseRowStatus h.disease = "✓ Healthy" ∧
      diseaseRowStatus s.disease ≠ diseaseRowStatus h.disease ∧
      diseaseRowPrediction s.disease ≠ diseaseRowPrediction h.disease := by
  intro s h hs hh
  simp [isHighDiseaseRisk, isDiseased, summaryStatusLabel, diseaseRowStatus,
    diseaseRowPrediction, hs, hh]

/-- C3 witness: an assessment-free snapshot against a confirmed-healthy
one. -/
theorem C3_unknown_distinct_from_healthy_witness :
    isHighDiseaseRisk ⟨none, none, none⟩ = false ∧
    summaryStatusLabel (some ⟨none, none, none⟩) = "Monitoring" ∧
    summaryStatusLabel (some ⟨some false, some 1, none⟩) = "Healthy" ∧
    summaryStatusLabel (some ⟨none, none, none⟩) ≠
      summaryStatusLabel (some ⟨some false, some 1, none⟩) ∧
    diseaseRowStatus (none : Option Bool) = "— Unknown" ∧
    diseaseRowStatus (some false) = "✓ Healthy" ∧
    diseaseRowStatus (none : Option Bool) ≠ diseaseRowStatus (some false) ∧
    diseaseRowPrediction (none : Option Bool) ≠ diseaseRowPrediction (some false) :=
  C3_unknown_distinct_from_healthy ⟨none, none, none⟩ ⟨some false, some 1, none⟩ rfl rfl

/-- C2: with K = 3, the alert machine transitions Normal→Alerting only with
`consecutiveBreach ≥ K` and Alerting→Normal only with
`consecutiveRecovery ≥ K`; a single breaching or recovering sample (from a
fresh streak) never flips the state; from `Normal` with a fresh streak, two
consecutive breaching samples never raise an alert and a third consecutive
breaching sample does. -/
theorem C2_hysteresis_K3 :
    (∀ (st : AlertState) (c : Bool), st.status = AlertStatus.Normal →
      (alertStep engineK st c).1.status = AlertStatus.Alerting →
      engineK ≤ (alertStep engineK st c).1.consecutiveBreach) ∧
    (∀ (st : AlertState) (c : Bool), st.status = AlertStatus.Alerting →
      (alertStep engineK st c).1.status = AlertStatus.Normal →
      engineK ≤ (alertStep engineK st c).1.consecutiveRecovery) ∧
    (∀ (st : AlertState) (c : Bool), st.consecutiveBreach = 0 →
      st.consecutiveRecovery = 0 →
      (alertStep engineK st c).1.status = st.status) ∧
    (∀ st : AlertState, st.status = AlertStatus.Normal →
      st.consecutiveBreach = 0 →
      (alertRun engineK st [true, true]).1.status = AlertStatus.Normal ∧
      AlertIntent.AlertRaised ∉ (alertRun engineK st [true, true]).2 ∧
      (alertRun engineK st [true, true, true]).2 =
        [AlertIntent.NoChange, AlertIntent.NoChange, AlertIntent.AlertRaised] ∧
      (alertRun engineK st [true, true, true]).1.status = AlertStatus.Alerting) := by
  refine ⟨?_, ?_, ?_, ?_⟩
  · intro st c hn ha
    obtain ⟨stat, b, r⟩ := st
    subst hn
    cases c <;> simp [alertStep, engineK] at ha ⊢ <;>
      split_ifs at ha ⊢ <;> simp_all
  · intro st c hn ha
    obtain ⟨stat, b, r⟩ := st
    subst hn
    cases c <;> simp [alertStep, engineK] at ha ⊢ <;>
      split_ifs at ha ⊢ <;> simp_all
  · intro st c hb hr
    obtain ⟨stat, b, r⟩ := st
    cases hb
    cases hr
    cases c <;> cases stat <;> simp [alertStep, engineK]
  · intro st hn hb
    obtain ⟨stat, b, r⟩ := st
    cases hn
    cases hb
    simp [alertRun, alertStep, engineK]

/-- C2 witness: from the fresh `Normal` state, two breaching ticks leave the
state `Normal` with no raise, and a third raises exactly once. -/
theorem C2_hysteresis_K3_witness :
    (alertRun engineK stFresh [true, true]).1.status = AlertStatus.Normal ∧
    AlertIntent.AlertRaised ∉ (alertRun engineK stFresh [true, true]).2 ∧
    (alertRun engineK stFresh [true, true, true]).2 =
      [AlertIntent.NoChange, AlertIntent.NoChange, AlertIntent.AlertRaised] ∧
    (alertRun engineK stFresh [true, true, true]).1.status = AlertStatus.Alerting :=
  C2_hysteresis_K3.2.2.2 stFresh rfl rfl

/-- Repeating an alert-machine step under an unchanged condition emits
`NoChange` and preserves the status, unless the first step left the relevant
consecutive counter exactly one short of K. -/
theorem alertStep_repeat_noChange (st : AlertState) (c : Bool)
    (h1 : (alertStep engineK st c).1.consecutiveBreach ≠ engineK - 1)
    (h2 : (alertStep engineK st c).1.consecutiveRecovery ≠ engineK - 1) :
    (alertStep engineK (alertStep engineK st c).1 c).2 = AlertIntent.NoChange ∧
    (alertStep engineK (alertStep engineK st c).1 c).1.status =
      (alertStep engineK st c).1.status := by
  obtain ⟨stat, b, r⟩ := st
  cases c <;> cases stat <;>
    simp [alertStep, engineK] at h1 h2 ⊢ <;>
    split_ifs at h1 h2 ⊢ <;> simp_all <;> omega

/-- C5 counterexample: evaluating the same breaching input twice from a
mid-streak alert state produces different `AlertState` outputs in the two
runs, and the second run emits `AlertRaised`, not `NoChange`. -/
theorem C5_repeated_tick_counterexample :
    ¬(tickRun2.alert = tickRun1.alert ∧ tickRun2.intent = AlertIntent.NoChange) ∧
    tickRun1.intent = AlertIntent.NoChange ∧
    tickRun2.intent = AlertIntent.AlertRaised ∧
    tickRun2.alert ≠ tickRun1.alert := by
  refine ⟨?_, by decide, by decide, by decide⟩
  intro h
  exact absurd h.2 (by decide)

/-- C5 (amended): evaluation is a pure function of its inputs — re-running a
tick on an unchanged (window, profile, threshold, assessment) state yields
identical recommendation output and identical fused risk; and the chained
second run emits `NoChange` and preserves the alert status provided the
first run left neither consecutive counter exactly one short of K (the
counters themselves advance on every run). -/
theorem C5_idempotence_amended :
    ∀ (cfg : TrendConfig) (gain : Rat) (inp : TickInput) (st : AlertState),
      (evaluateTick cfg gain inp (evaluateTick cfg gain inp st).alert).recOut =
        (evaluateTick cfg gain inp st).recOut ∧
      (evaluateTick cfg gain inp (evaluateTick cfg gain inp st).alert).highRisk =
        (evaluateTick cfg gain inp st).highRisk ∧
      ((evaluateTick cfg gain inp st).alert.consecutiveBreach ≠ engineK - 1 →
        (evaluateTick cfg gain inp st).alert.consecutiveRecovery ≠ engineK - 1 →
        (evaluateTick cfg gain inp (evaluateTick cfg gain inp st).alert).intent =
          AlertIntent.NoChange ∧
        (evaluateTick cfg gain inp (evaluateTick cfg gain inp st).alert).alert.status =
          (evaluateTick cfg gain inp st).alert.status) := by
  intro cfg gain inp st
  refine ⟨rfl, rfl, ?_⟩
  intro h1 h2
  exact alertStep_repeat_noChange st (breachCond inp) h1 h2

/-- C5 witness: from the fresh state the repeated breaching evaluation keeps
its recommendation and risk outputs and the second run is a `NoChange`. -/
theorem C5_idempotence_amended_witness :
    (evaluateTick ⟨1/10, 1⟩ (1/2) inpBreach
        (evaluateTick ⟨1/10, 1⟩ (1/2) inpBreach stFresh).alert).recOut =
      (evaluateTick ⟨1/10, 1⟩ (1/2) inpBreach stFresh).recOut ∧
    (evaluateTick ⟨1/10, 1⟩ (1/2) inpBreach
        (evaluateTick ⟨1/10, 1⟩ (1/2) inpBreach stFresh).alert).highRisk =
      (evaluateTick ⟨1/10, 1⟩ (1/2) inpBreach stFresh).highRisk ∧
    (evaluateTick ⟨1/10, 1⟩ (1/2) inpBreach
        (evaluateTick ⟨1/10, 1⟩ (1/2) inpBreach stFresh).alert).intent =
      AlertIntent.NoChange ∧
    (evaluateTick ⟨1/10, 1⟩ (1/2) inpBreach
        (evaluateTick ⟨1/10, 1⟩ (1/2) inpBreach stFresh).alert).alert.status =
      (evaluateTick ⟨1/10, 1⟩ (1/2) inpBreach stFresh).alert.status := by
  have h := C5_idempotence_amended ⟨1/10, 1⟩ (1/2) inpBreach stFresh
  exact ⟨h.1, h.2.1, (h.2.2 (by decide) (by decide)).1, (h.2.2 (by decide) (by decide)).2⟩

/-- C4: every recommendation the recommender emits carries a recommended
threshold inside the profile's ideal band `[r.min, r.max]`, the shift being
clamped there. -/
theorem C4_recommendation_clamped :
    ∀ (cfg : TrendConfig) (r : IdealRange) (gain : Rat) (current : Option Rat)
      (confirming : Nat) (windowFull : Bool) (w : List Sample)
      (recn : Recommendation),
      r.min ≤ r.max →
      recommendFor cfg r gain current confirming windowFull w = some recn →
      r.min ≤ recn.recommendedThreshold ∧ recn.recommendedThreshold ≤ r.max := by
  intro cfg r gain current confirming windowFull w recn hr h
  by_cases h1 : TrendTag.insufficient_data ∈ analyzeTrend cfg (r.max - r.min) w
  · simp [recommendFor, h1] at h
  · by_cases h2 : movingAway r (analyzeTrend cfg (r.max - r.min) w) (meanValue w)
    · have h1f : (analyzeTrend cfg (r.max - r.min) w).contains TrendTag.insufficient_data
          = false := by simpa using h1
      simp only [recommendFor] at h
      rw [h1f] at h
      simp only [Bool.false_eq_true, if_false] at h
      rw [if_pos h2] at h
      injection h with h
      subst h
      exact ⟨le_sup_left, sup_le hr inf_le_left⟩
    · simp [recommendFor, h1, h2] at h

/-- C4 witness: over the band `[30, 36]` a rising out-of-range window with a
large gain would shift the threshold to `-55`, yet the emitted
recommendation is clamped to 30, inside the band. -/
theorem C4_recommendation_clamped_witness :
    recommendFor cfgA rangeA 10 (some 35) 2 true windowRising = some recA ∧
    rangeA.min ≤ recA.recommendedThreshold ∧ recA.recommendedThreshold ≤ rangeA.max := by
  have hemit : recommendFor cfgA rangeA 10 (some 35) 2 true windowRising = some recA := by
    norm_num [recommendFor, analyzeTrend, olsSlope, olsIntercept, residualVariance,
      sumL, meanValue, movingAway, deviationMagnitude, confidenceTier, reasoningFor,
      cfgA, rangeA, windowRising, recA, List.foldl, List.contains]
    decide
  refine ⟨hemit, ?_⟩
  exact C4_recommendation_clamped cfgA rangeA 10 (some 35) 2 true windowRising recA
    (by norm_num [rangeA]) hemit

/-- C6: a window with fewer than 3 samples is classified `insufficient_data`
by the (total, non-failing) trend analyzer; the recommender emits no
recommendation from such a window, so every recommendation it does emit from
it (there are none) has confidence `low`. -/
theorem C6_insufficient_data :
    ∀ (cfg : TrendConfig) (r : IdealRange) (gain : Rat) (current : Option Rat)
      (confirming : Nat) (windowFull : Bool) (w : List Sample),
      w.length < 3 →
      analyzeTrend cfg (r.max - r.min) w = [TrendTag.insufficient_data] ∧
      recommendFor cfg r gain current confirming windowFull w = none ∧
      ∀ recn : Recommendation,
        recommendFor cfg r gain current confirming windowFull w = some recn →
        recn.confidence = Confidence.low := by
  intro cfg r gain current confirming windowFull w hw
  have htags : analyzeTrend cfg (r.max - r.min) w = [TrendTag.insufficient_data] := by
    unfold analyzeTrend
    simp [hw]
  have hnone : recommendFor cfg r gain current confirming windowFull w = none := by
    unfold recommendFor
    simp [htags]
  refine ⟨htags, hnone, ?_⟩
  intro recn hsome
  rw [hnone] at hsome
  exact absurd hsome (by simp)

/-- C6 witness: the empty window. -/
theorem C6_insufficient_data_witness :
    analyzeTrend cfgA (rangeA.max - rangeA.min) [] = [TrendTag.insufficient_data] ∧
    recommendFor cfgA rangeA 1 none 0 false [] = none :=
  ⟨(C6_insufficient_data cfgA rangeA 1 none 0 false [] (by decide)).1,
   (C6_insufficient_data cfgA rangeA 1 none 0 false [] (by decide)).2.1⟩

/-- C7: a threshold write is persisted exactly when the recommendation's
confidence is `high` or the operator explicitly accepted it; the accept path
(`handleApply`) issues a config-write command carrying exactly the
recommendation's threshold for its actuator's metric. -/
theorem C7_threshold_write_policy :
    (∀ (conf : Confidence) (accepted : Bool),
      thresholdWritePersisted conf accepted = true ↔
        (conf = Confidence.high ∨ accepted = true)) ∧
    (∀ (a : ActionKey) (th : Rat),
      (handleApplyCommand a th).targetValue = th ∧
      (handleApplyCommand a th).actuator = a ∧
      (handleApplyCommand a th).metric = actuatorMetric a) := by
  constructor
  · intro conf accepted
    cases conf <;> cases accepted <;> simp [thresholdWritePersisted]
  · intro a th
    exact ⟨rfl, rfl, rfl⟩

/-- C8: `formatPoints` clamps each point's confidence to `[0, 1]` and maps
it to a y value in `[0, 1]`: `0.5 - c·0.5` (≤ 0.5) for a diseased point,
`0.5 + c·0.5` (≥ 0.5) for a healthy point, and exactly `0.5` when the
disease flag is absent. -/
theorem C8_formatPoints_yValue :
    ∀ (pts : List SeriesPoint) (d : ChartDatum), d ∈ formatPoints pts →
      (0 ≤ clampedConfidence d.point ∧ clampedConfidence d.point ≤ 1) ∧
      (0 ≤ d.yValue ∧ d.yValue ≤ 1) ∧
      (d.point.disease = some true →
        d.yValue = 1/2 - clampedConfidence d.point * (1/2) ∧ d.yValue ≤ 1/2) ∧
      (d.point.disease = some false →
        d.yValue = 1/2 + clampedConfidence d.point * (1/2) ∧ 1/2 ≤ d.yValue) ∧
      (d.point.disease = none → d.yValue = 1/2) := by
  intro pts d hd
  obtain ⟨p, _, rfl⟩ := List.mem_map.1 hd
  have hc0 : (0:Rat) ≤ clampedConfidence p := le_max_left _ _
  have hc1 : clampedConfidence p ≤ 1 := by
    refine max_le ?_ (min_le_left _ _)
    norm_num
  refine ⟨⟨hc0, hc1⟩, ?_, ?_, ?_, ?_⟩
  · rcases hdis : p.disease with _ | b
    · simp [formatPoint, yValueOf, hdis]
      norm_num
    · cases b <;> simp [formatPoint, yValueOf, hdis] <;> constructor <;> linarith
  · intro hdis
    simp only [formatPoint] at hdis
    simp only [formatPoint, yValueOf, hdis]
    exact ⟨trivial, by linarith⟩
  · intro hdis
    simp only [formatPoint] at hdis
    simp only [formatPoint, yValueOf, hdis]
    exact ⟨trivial, by linarith⟩
  · intro hdis
    simp only [formatPoint] at hdis
    simp only [formatPoint, yValueOf, hdis]

/-- C8 witness: a diseased point with confidence 2 (clamped to 1), giving
y = 0. -/
theorem C8_formatPoints_yValue_witness :
    formatPoint ⟨some true, some 2, none⟩ ∈ formatPoints [⟨some true, some 2, none⟩] ∧
    (0 ≤ (formatPoint ⟨some true, some 2, none⟩).yValue ∧
      (formatPoint ⟨some true, some 2, none⟩).yValue ≤ 1) ∧
    (formatPoint ⟨some true, some 2, none⟩).yValue =
      1/2 - clampedConfidence ⟨some true, some 2, none⟩ * (1/2) ∧
    (formatPoint ⟨some true, some 2, none⟩).yValue ≤ 1/2 := by
  have hmem : formatPoint ⟨some true, some 2, none⟩ ∈
      formatPoints [⟨some true, some 2, none⟩] := by
    simp [formatPoints]
  have h := C8_formatPoints_yValue [⟨some true, some 2, none⟩]
    (formatPoint ⟨some true, some 2, none⟩) hmem
  exact ⟨hmem, h.2.1, (h.2.2.1 rfl).1, (h.2.2.1 rfl).2⟩

/-- C9: the synthetic telemetry record built by the mock and fallback paths
of `submitTelemetry` keeps an explicit disease flag unchanged and otherwise
derives it as `score ≥ 0.7` — a cutoff distinct from (and below) the 0.80
disease-risk confidence floor: a score of 0.75 is flagged diseased yet sits
under the risk floor. -/
theorem C9_submitTelemetry_disease_flag :
    ∀ (now : Nat) (p : TelemetryPayload),
      (p.disease = none →
        (syntheticRecord now p).disease = decide (DISEASE_SCORE_CUTOFF ≤ p.score)) ∧
      (∀ d : Bool, p.disease = some d → (syntheticRecord now p).disease = d) ∧
      DISEASE_SCORE_CUTOFF ≠ RISK_CONFIDENCE_FLOOR ∧
      DISEASE_SCORE_CUTOFF ≤ (3/4 : Rat) ∧ (3/4 : Rat) < RISK_CONFIDENCE_FLOOR := by
  intro now p
  refine ⟨?_, ?_, ?_, ?_, ?_⟩
  · intro hdis
    simp [syntheticRecord, hdis]
  · intro d hdis
    simp [syntheticRecord, hdis]
  · norm_num [DISEASE_SCORE_CUTOFF, RISK_CONFIDENCE_FLOOR]
  · norm_num [DISEASE_SCORE_CUTOFF]
  · norm_num [RISK_CONFIDENCE_FLOOR]

/-- C9 witness: a flagless payload with score 0.75 comes back diseased
(0.7 cutoff), and an explicit `disease = false` survives unchanged. -/
theorem C9_submitTelemetry_disease_flag_witness :
    (syntheticRecord 0 ⟨"device-2", 3/4, none, none, none, none, none, none⟩).disease =
      decide (DISEASE_SCORE_CUTOFF ≤ (3/4 : Rat)) ∧
    (syntheticRecord 0 ⟨"device-2", 3/4, none, none, none, none, some false, none⟩).disease =
      false :=
  ⟨(C9_submitTelemetry_disease_flag 0
      ⟨"device-2", 3/4, none, none, none, none, none, none⟩).1 rfl,
   (C9_submitTelemetry_disease_flag 0
      ⟨"device-2", 3/4, none, none, none, none, some false, none⟩).2.1 false rfl⟩

/-- C10: the control panel's `trigger` sends an actuator command only for a
non-empty, numeric input within the metric's bounds (soil moisture 0–100,
temperature 10–40, light 0–100000); an empty, non-numeric or out-of-range
input produces an error message and no command. -/
theorem C10_trigger_validation :
    (metricMin MetricKey.soilMoisture = 0 ∧ metricMax MetricKey.soilMoisture = 100 ∧
     metricMin MetricKey.temperatureC = 10 ∧ metricMax MetricKey.temperatureC = 40 ∧
     metricMin MetricKey.lightLux = 0 ∧ metricMax MetricKey.lightLux = 100000) ∧
    (∀ (metric : MetricKey) (loading : Nat) (x : Rat) (cmd : ActuatorCommand),
      trigger metric loading (some (some x)) = TriggerOutcome.sent cmd →
      metricMin metric ≤ x ∧ x ≤ metricMax metric ∧
      cmd = ⟨metricToAction metric, parsedValue metric x, metric⟩) ∧
    (∀ (metric : MetricKey) (loading : Nat) (cmd : ActuatorCommand),
      trigger metric loading none ≠ TriggerOutcome.sent cmd ∧
      trigger metric loading (some none) ≠ TriggerOutcome.sent cmd) ∧
    (∀ metric : MetricKey,
      trigger metric 0 none = TriggerOutcome.invalid "Please enter a target value" ∧
      trigger metric 0 (some none) = TriggerOutcome.invalid "Invalid number") ∧
    (∀ (metric : MetricKey) (x : Rat),
      (x < metricMin metric ∨ metricMax metric < x) →
      ∃ msg, trigger metric 0 (some (some x)) = TriggerOutcome.invalid msg) := by
  refine ⟨by norm_num [metricMin, metricMax], ?_, ?_, ?_, ?_⟩
  · intro metric loading x cmd h
    by_cases hl : 0 < loading
    · simp [trigger, hl] at h
    · by_cases hx : x < metricMin metric ∨ metricMax metric < x
      · simp [trigger, hl, hx] at h
      · push_neg at hx
        refine ⟨hx.1, hx.2, ?_⟩
        simp only [trigger, hl, if_false] at h
        rw [if_neg (by push_neg; exact hx)] at h
        injection h with h
        exact h.symm
  · intro metric loading cmd
    by_cases hl : 0 < loading <;> constructor <;> simp [trigger, hl]
  · intro metric
    constructor <;> simp [trigger]
  · intro metric x hx
    refine ⟨"Value must be between " ++ toString (metricMin metric) ++ " and " ++
      toString (metricMax metric) ++ " " ++ metricUnit metric, ?_⟩
    simp only [trigger, lt_irrefl, if_false]
    rw [if_pos hx]

/-- C10 witness: 20 °C is in range and is sent to the fan; 50 °C is out of
range and only yields an error. -/
theorem C10_trigger_validation_witness :
    trigger MetricKey.temperatureC 0 (some (some 20)) =
      TriggerOutcome.sent ⟨ActionKey.fan, 20, MetricKey.temperatureC⟩ ∧
    metricMin MetricKey.temperatureC ≤ 20 ∧ (20 : Rat) ≤ metricMax MetricKey.temperatureC ∧
    trigger MetricKey.temperatureC 0 none =
      TriggerOutcome.invalid "Please enter a target value" := by
  have hsent : trigger MetricKey.temperatureC 0 (some (some 20)) =
      TriggerOutcome.sent ⟨ActionKey.fan, 20, MetricKey.temperatureC⟩ := by
    norm_num [trigger, metricMin, metricMax, metricToAction, parsedValue]
  have h := (C10_trigger_validation.2.1 MetricKey.temperatureC 0 20
    ⟨ActionKey.fan, 20, MetricKey.temperatureC⟩ hsent)
  exact ⟨hsent, h.1, h.2.1, (C10_trigger_validation.2.2.2.1 MetricKey.temperatureC).1⟩

end CloudIot
